import Mathlib

set_option maxRecDepth 40000

/-!
Verification of the hybrid local/cloud lab-summarizer agent
(`hybridAI_agent_with_tool.py`) against its natural-language specification.

The development shallowly embeds the Python source:

* strings are `List Char`; Python's `str.strip`/`lstrip`/`rstrip` become
  `pyStrip`/`pyLstrip`/`pyRstrip`;
* `_strip_code_fences` becomes `stripCodeFences`;
* the Python `json` library (used via `json.loads`) is modelled by the
  executable parser `jsonLoads` over the `Json` value type;
* `summarize_lab_report` becomes `summarizeLabReport`, a function from the
  outcome of its single HTTP call to an `Except` value whose error
  constructors stand for the distinct Python exceptions the code can raise;
* the request actually constructed and POSTed is modelled by `requestsSent`.

Components that exist in the repository only as prompt text for a cloud
model (the orchestration gateway) are modelled from the spec and marked
as such in their doc comments.
-/

/-! ## Python string primitives -/

/-- Whitespace as stripped by Python's `str.strip` (ASCII part; the claims
only involve ASCII whitespace). -/
def pyWs (c : Char) : Bool :=
  c = ' ' || c = '\t' || c = '\n' || c = '\r' || c = '\x0b' || c = '\x0c'

/-- Python `str.lstrip()`. -/
def pyLstrip (s : List Char) : List Char := s.dropWhile pyWs

/-- Python `str.rstrip()`. -/
def pyRstrip (s : List Char) : List Char := (s.reverse.dropWhile pyWs).reverse

/-- Python `str.strip()`. -/
def pyStrip (s : List Char) : List Char := pyRstrip (pyLstrip s)

/-- Python `str.startswith`, as a Boolean prefix test on character lists. -/
def startsWith : List Char → List Char → Bool
  | [], _ => true
  | _ :: _, [] => false
  | p :: ps, c :: cs => p == c && startsWith ps cs

/-- Python `str.endswith`: suffix test via reversal. -/
def endsWith (suf s : List Char) : Bool := startsWith suf.reverse s.reverse

/-- The fence marker of three backticks (written via `\x60` escapes). -/
def fenceMarker : List Char := ['\x60', '\x60', '\x60']

/-- The language tag checked by `_strip_code_fences`. -/
def jsonTag : List Char := ['j', 's', 'o', 'n']

/-! ## The sanitizer `_strip_code_fences` (source lines 70–84) -/

/-- The language-tag removal step of `_strip_code_fences`
(`if stripped.lower().startswith("json"): stripped = stripped[4:].lstrip()`). -/
def stripTagPart (s1 : List Char) : List Char :=
  if startsWith jsonTag (s1.map Char.toLower) then pyLstrip (s1.drop 4) else s1

/-- The closing-fence removal step of `_strip_code_fences`
(`if stripped.endswith("```"): stripped = stripped[:-3].rstrip()`). -/
def stripCloseFence (s2 : List Char) : List Char :=
  if endsWith fenceMarker s2 then pyRstrip (s2.take (s2.length - 3)) else s2

/-- `_strip_code_fences(text)`: trim; if the result starts with ``` remove it
and lstrip, optionally remove a `json` tag, then remove a trailing ``` and
rstrip; otherwise return the trimmed text. -/
def stripCodeFences (text : List Char) : List Char :=
  if startsWith fenceMarker (pyStrip text) then
    stripCloseFence (stripTagPart (pyLstrip ((pyStrip text).drop 3)))
  else pyStrip text

/-- Wrapping in a fenced block with the `json` language tag. -/
def wrapFenceTag (s : List Char) : List Char :=
  fenceMarker ++ (jsonTag ++ ('\n' :: (s ++ ('\n' :: fenceMarker))))

/-- Wrapping in a fenced block without a language tag. -/
def wrapFenceNoTag (s : List Char) : List Char :=
  fenceMarker ++ ('\n' :: (s ++ ('\n' :: fenceMarker)))

/-! ## Spec-side descriptions of the sanitizer's tag step (for C9) -/

/-- The spec's description of the language-tag step, read with "token" as the
whitespace-delimited word after the marker: the tag is removed iff that whole
token, matched case-insensitively, is the language tag. -/
def stripTagPartToken (s1 : List Char) : List Char :=
  if (s1.takeWhile (fun c => !(pyWs c))).map Char.toLower == jsonTag then
    pyLstrip (s1.drop 4)
  else s1

/-- The sanitizer as the spec describes it, with the token reading of the
language-tag condition. -/
def specStripTokenTag (text : List Char) : List Char :=
  if startsWith fenceMarker (pyStrip text) then
    stripCloseFence (stripTagPartToken (pyLstrip ((pyStrip text).drop 3)))
  else pyStrip text

/-- The amended description's tag condition: the four characters immediately
following the marker, lowercased, are the language tag. -/
def lowerTagPrefix (s1 : List Char) : Bool :=
  (s1.take 4).map Char.toLower == jsonTag

/-- The amended description's language-tag step: remove four characters iff
the text after the marker merely begins (case-insensitively) with the tag. -/
def stripTagPartAmended (s1 : List Char) : List Char :=
  if lowerTagPrefix s1 then pyLstrip (s1.drop 4) else s1

/-- The sanitizer as amended: marker removal, prefix-matched tag removal,
closing-fence removal with trailing trim. -/
def specStripAmended (text : List Char) : List Char :=
  if startsWith fenceMarker (pyStrip text) then
    stripCloseFence (stripTagPartAmended (pyLstrip ((pyStrip text).drop 3)))
  else pyStrip text

/-! ## The `json` library model: values and `json.loads` -/

/-- JSON values as produced by Python's `json.loads`. Numeric literals are
kept textually (the claims never compute with numbers, and floating-point
semantics are out of scope). -/
inductive Json where
  | null : Json
  | bool : Bool → Json
  | num : List Char → Json
  | str : List Char → Json
  | arr : List Json → Json
  | obj : List (List Char × Json) → Json

/-- JSON insignificant whitespace. -/
def jsonWs (c : Char) : Bool := c = ' ' || c = '\t' || c = '\n' || c = '\r'

/-- Skip insignificant whitespace. -/
def skipWs (s : List Char) : List Char := s.dropWhile jsonWs

/-- Value of a hex digit. -/
def hexVal (c : Char) : Option Nat :=
  if '0' ≤ c ∧ c ≤ '9' then some (c.toNat - '0'.toNat)
  else if 'a' ≤ c ∧ c ≤ 'f' then some (c.toNat - 'a'.toNat + 10)
  else if 'A' ≤ c ∧ c ≤ 'F' then some (c.toNat - 'A'.toNat + 10)
  else none

/-- Parse the body of a JSON string (after the opening quote), handling the
standard escapes; surrogate-pair recombination is not modelled. Returns the
decoded characters and the remaining input. -/
def parseStringBody : Nat → List Char → Option (List Char × List Char)
  | 0, _ => none
  | _, [] => none
  | fuel + 1, c :: rest =>
    if c = '"' then some ([], rest)
    else if c = '\\' then
      match rest with
      | [] => none
      | e :: rest2 =>
        let dec : Option (Char × List Char) :=
          if e = '"' then some ('"', rest2)
          else if e = '\\' then some ('\\', rest2)
          else if e = '/' then some ('/', rest2)
          else if e = 'b' then some ('\x08', rest2)
          else if e = 'f' then some ('\x0c', rest2)
          else if e = 'n' then some ('\n', rest2)
          else if e = 'r' then some ('\r', rest2)
          else if e = 't' then some ('\t', rest2)
          else if e = 'u' then
            match rest2 with
            | h1 :: h2 :: h3 :: h4 :: rest3 =>
              match hexVal h1, hexVal h2, hexVal h3, hexVal h4 with
              | some a, some b, some c2, some d =>
                some (Char.ofNat (((a * 16 + b) * 16 + c2) * 16 + d), rest3)
              | _, _, _, _ => none
            | _ => none
          else none
        match dec with
        | none => none
        | some (ch, rest3) =>
          (parseStringBody fuel rest3).map (fun r => (ch :: r.1, r.2))
    else
      (parseStringBody fuel rest).map (fun r => (c :: r.1, r.2))

/-- Digit run of a number literal. -/
def digitRun (s : List Char) : List Char × List Char :=
  (s.takeWhile Char.isDigit, s.dropWhile Char.isDigit)

/-- Integer part of a JSON number: `0`, or a nonzero digit followed by digits. -/
def parseIntPart : List Char → Option (List Char × List Char)
  | [] => none
  | c :: rest =>
    if c = '0' then some (['0'], rest)
    else if c.isDigit then
      some (c :: (digitRun rest).1, (digitRun rest).2)
    else none

/-- Optional fraction part of a JSON number. -/
def parseFracPart (s : List Char) : Option (List Char × List Char) :=
  match s with
  | '.' :: rest =>
    if (digitRun rest).1.isEmpty then none
    else some ('.' :: (digitRun rest).1, (digitRun rest).2)
  | _ => some ([], s)

/-- Optional exponent part of a JSON number. -/
def parseExpPart (s : List Char) : Option (List Char × List Char) :=
  match s with
  | c :: rest =>
    if c = 'e' ∨ c = 'E' then
      match rest with
      | sgn :: rest2 =>
        if sgn = '+' ∨ sgn = '-' then
          if (digitRun rest2).1.isEmpty then none
          else some (c :: sgn :: (digitRun rest2).1, (digitRun rest2).2)
        else if (digitRun rest).1.isEmpty then none
        else some (c :: (digitRun rest).1, (digitRun rest).2)
      | [] => none
    else some ([], s)
  | [] => some ([], s)

/-- A JSON number literal, kept textually. -/
def parseNumber (s : List Char) : Option (List Char × List Char) :=
  let sp := match s with
    | '-' :: r => (['-'], r)
    | _ => (([] : List Char), s)
  match parseIntPart sp.2 with
  | none => none
  | some (ip, s2) =>
    match parseFracPart s2 with
    | none => none
    | some (fp, s3) =>
      match parseExpPart s3 with
      | none => none
      | some (ep, s4) => some (sp.1 ++ ip ++ fp ++ ep, s4)

mutual

/-- Parse one JSON value. Fuel decreases at each nesting level; the entry
point supplies `length + 1`, which is ample since each level consumes at
least one character before recursing. -/
def parseValue : Nat → List Char → Option (Json × List Char)
  | 0, _ => none
  | fuel + 1, s =>
    match s with
    | [] => none
    | '{' :: rest => parseMembers fuel true (skipWs rest)
    | '[' :: rest => parseElems fuel true (skipWs rest)
    | '"' :: rest => (parseStringBody (rest.length + 1) rest).map (fun r => (Json.str r.1, r.2))
    | 't' :: 'r' :: 'u' :: 'e' :: rest => some (Json.bool true, rest)
    | 'f' :: 'a' :: 'l' :: 's' :: 'e' :: rest => some (Json.bool false, rest)
    | 'n' :: 'u' :: 'l' :: 'l' :: rest => some (Json.null, rest)
    | _ => (parseNumber s).map (fun r => (Json.num r.1, r.2))

/-- Parse the members of an object after `{` (whitespace already skipped).
`allowEnd` is true only before the first member, so trailing commas are
rejected as in Python. -/
def parseMembers : Nat → Bool → List Char → Option (Json × List Char)
  | 0, _, _ => none
  | fuel + 1, allowEnd, s =>
    match s with
    | '}' :: rest => if allowEnd then some (Json.obj [], rest) else none
    | '"' :: rest =>
      match parseStringBody (rest.length + 1) rest with
      | none => none
      | some (key, r1) =>
        match skipWs r1 with
        | ':' :: r2 =>
          match parseValue fuel (skipWs r2) with
          | none => none
          | some (v, r3) =>
            match skipWs r3 with
            | ',' :: r4 =>
              match parseMembers fuel false (skipWs r4) with
              | some (Json.obj ms, r5) => some (Json.obj ((key, v) :: ms), r5)
              | _ => none
            | '}' :: r4 => some (Json.obj [(key, v)], r4)
            | _ => none
        | _ => none
    | _ => none

/-- Parse the elements of an array after `[` (whitespace already skipped). -/
def parseElems : Nat → Bool → List Char → Option (Json × List Char)
  | 0, _, _ => none
  | fuel + 1, allowEnd, s =>
    match s with
    | ']' :: rest => if allowEnd then some (Json.arr [], rest) else none
    | _ =>
      match parseValue fuel s with
      | none => none
      | some (v, r1) =>
        match skipWs r1 with
        | ',' :: r2 =>
          match parseElems fuel false (skipWs r2) with
          | some (Json.arr xs, r3) => some (Json.arr (v :: xs), r3)
          | _ => none
        | ']' :: r2 => some (Json.arr [v], r2)
        | _ => none

end

/-- `json.loads`: parse a complete JSON document; trailing content other than
whitespace is an error, as in Python. -/
def jsonLoads (s : List Char) : Option Json :=
  match parseValue (s.length + 1) (skipWs s) with
  | none => none
  | some (v, rest) => if (skipWs rest).isEmpty then some v else none

/-! ## Response-shape access and reply-content handling (source lines 128–139) -/

/-- The `"text"` key of a content fragment. -/
def textKey : List Char := "text".toList

/-- Lookup in a Python dict built by `json.loads` from an object: duplicate
keys are overwritten in order, so the last occurrence wins. -/
def jLookup : List (List Char × Json) → List Char → Option Json
  | [], _ => none
  | kv :: rest, key =>
    match jLookup rest key with
    | some r => some r
    | none => if kv.1 == key then some kv.2 else none

/-- Python `data[key]` on a parsed JSON value: defined only when the value is
an object containing the key (otherwise Python raises TypeError/KeyError). -/
def getKey (j : Json) (key : List Char) : Option Json :=
  match j with
  | Json.obj fields => jLookup fields key
  | _ => none

/-- Python `data[0]` on a parsed JSON value: defined only when the value is a
nonempty array (otherwise Python raises TypeError/IndexError). -/
def getFirst (j : Json) : Option Json :=
  match j with
  | Json.arr (x :: _) => some x
  | _ => none

/-- The unguarded access `data["choices"][0]["message"]["content"]`. -/
def contentLookup (data : Json) : Option Json :=
  (getKey data ("choices".toList)).bind fun cs =>
    (getFirst cs).bind fun c0 =>
      (getKey c0 ("message".toList)).bind fun m =>
        getKey m ("content".toList)

/-- One pass of `"".join(part.get("text", "") for part in content if
isinstance(part, dict))`: non-dict parts are skipped, a dict without `"text"`
contributes the default empty string, and a non-string `"text"` value makes
`join` raise (modelled as `none`). -/
def concatParts : List Json → Option (List Char)
  | [] => some []
  | p :: ps =>
    match p with
    | Json.obj fields =>
      match jLookup fields textKey with
      | none => concatParts ps
      | some (Json.str t) => (concatParts ps).map (fun r => t ++ r)
      | some _ => none
    | _ => concatParts ps

/-- The string-vs-list-of-parts handling of the reply's `content` field
(source lines 134–139). A content value that is neither a string nor a list
makes the subsequent `.strip()` raise, modelled as `none`. -/
def contentToText (content : Json) : Option (List Char) :=
  match content with
  | Json.arr parts => concatParts parts
  | Json.str s => some s
  | _ => none

/-- The in-order text of one content fragment as the spec describes it: the
`"text"` field of a text-bearing (dict) fragment, nothing otherwise. -/
def fragmentText (part : Json) : List Char :=
  match part with
  | Json.obj fields =>
    match jLookup fields textKey with
    | some (Json.str t) => t
    | _ => []
  | _ => []

/-- A fragment whose `"text"` field, if present, is a string. -/
def partWellTyped (part : Json) : Bool :=
  match part with
  | Json.obj fields =>
    match jLookup fields textKey with
    | some (Json.str _) => true
    | none => true
    | some _ => false
  | _ => true

/-- Concatenation of a list of strings. -/
def joinAll : List (List Char) → List Char
  | [] => []
  | l :: ls => l ++ joinAll ls

/-! ## The tool `summarize_lab_report` (source lines 94–151) -/

/-- The distinct exceptions `summarize_lab_report` can propagate, one
constructor per raise site: `requests.exceptions.Timeout`,
`requests.exceptions.ConnectionError`, `requests.HTTPError` (from
`raise_for_status`), the decode error from `resp.json()`, the
KeyError/IndexError/TypeError from the unguarded shape access, the
TypeError from `.strip()` on non-string content, and the
`json.JSONDecodeError` from `json.loads(cleaned)`, which carries the
document being parsed (the sanitized text) in its `doc` attribute. -/
inductive LabError where
  | timeoutError : LabError
  | connectionError : LabError
  | httpStatusError : Nat → LabError
  | responseDecodeError : LabError
  | shapeAccessError : LabError
  | contentTypeError : LabError
  | outputDecodeError : List Char → LabError
deriving DecidableEq

/-- The spec's error taxonomy (§7): 0 = UnavailableError, 1 = ServiceError,
2 = ProtocolError, 3 = MalformedOutputError. -/
def errCategory : LabError → Nat
  | LabError.timeoutError => 0
  | LabError.connectionError => 0
  | LabError.httpStatusError _ => 1
  | LabError.responseDecodeError => 2
  | LabError.shapeAccessError => 2
  | LabError.contentTypeError => 2
  | LabError.outputDecodeError _ => 3

/-- The outcome of the single `requests.post` call: a timeout, a connection
failure, or an HTTP response with a status code and a body. -/
inductive HttpOutcome where
  | timeout : HttpOutcome
  | connectError : HttpOutcome
  | response : Nat → List Char → HttpOutcome

/-- The response-processing of `summarize_lab_report`, from the outcome of
its one HTTP call: `raise_for_status()` (raises for 4xx/5xx), `resp.json()`,
the unguarded `data["choices"][0]["message"]["content"]` access, the
string-vs-parts handling, `_strip_code_fences`, and `json.loads`; the parsed
value is returned as-is, with no schema validation step. -/
def summarizeLabReport (_labText : List Char) (outcome : HttpOutcome) : Except LabError Json :=
  match outcome with
  | HttpOutcome.timeout => Except.error LabError.timeoutError
  | HttpOutcome.connectError => Except.error LabError.connectionError
  | HttpOutcome.response status body =>
    if 400 ≤ status ∧ status < 600 then Except.error (LabError.httpStatusError status)
    else
      match jsonLoads body with
      | none => Except.error LabError.responseDecodeError
      | some data =>
        match contentLookup data with
        | none => Except.error LabError.shapeAccessError
        | some content =>
          match contentToText content with
          | none => Except.error LabError.contentTypeError
          | some contentText =>
            match jsonLoads (stripCodeFences contentText) with
            | none => Except.error (LabError.outputDecodeError (stripCodeFences contentText))
            | some labSummary => Except.ok labSummary

/-! ## The HTTP request constructed by the tool (source lines 105–125) -/

/-- One chat message of the request body. -/
structure ChatMessage where
  role : List Char
  content : List Char
deriving DecidableEq

/-- The JSON body POSTed by `summarize_lab_report`. The temperature 0.2 is
recorded in tenths; floating-point semantics are out of scope. -/
structure RequestPayload where
  model : List Char
  messages : List ChatMessage
  maxTokens : Nat
  temperatureTenths : Nat
deriving DecidableEq

/-- One HTTP request as issued by `requests.post`. -/
structure HttpRequest where
  url : List Char
  contentTypeHeader : List Char
  body : RequestPayload
  timeoutSeconds : Nat
deriving DecidableEq

/-- `FOUNDRY_LOCAL_BASE` (source line 40). -/
def foundryLocalBase : List Char := "http://127.0.0.1:52403".toList

/-- `FOUNDRY_LOCAL_CHAT_URL` (source line 41). -/
def foundryLocalChatUrl : List Char := foundryLocalBase ++ "/v1/chat/completions".toList

/-- `FOUNDRY_LOCAL_MODEL_ID` (source line 44). -/
def foundryLocalModelId : List Char := "Phi-4-mini-instruct-cuda-gpu:5".toList

/-- `LOCAL_LAB_SYSTEM_PROMPT` (source lines 47–67), after the `.strip()`
applied to the Python literal. -/
def localLabSystemPrompt : List Char :=
  ("You are a medical lab report summarizer running locally on the user's machine.\n\nYou MUST respond with ONLY one valid JSON object. Do not include any explanation,\nbackticks, markdown, or text outside the JSON. The JSON must have this shape:\n\n\x7b\n  \"overall_assessment\": \"<short plain English summary>\",\n  \"notable_abnormal_results\": [\n    \x7b\n      \"test\": \"string\",\n      \"value\": \"string\",\n      \"unit\": \"string or null\",\n      \"reference_range\": \"string or null\",\n      \"severity\": \"mild|moderate|severe\"\n    \x7d\n  ]\n\x7d\n\nIf you are unsure about a field, use null. Do NOT invent values.").toList

/-- The request payload built at source lines 105–113: the model id, the
system message followed by the user message, `max_tokens` and temperature. -/
def buildPayload (labText : List Char) : RequestPayload :=
  { model := foundryLocalModelId,
    messages := [⟨"system".toList, localLabSystemPrompt⟩, ⟨"user".toList, labText⟩],
    maxTokens := 256,
    temperatureTenths := 2 }

/-- The trace of HTTP requests issued by one invocation of
`summarize_lab_report`: the source performs exactly one unconditional
`requests.post` (lines 120–125), with the JSON content-type header and a
120-second timeout, and no retry of any kind. -/
def requestsSent (labText : List Char) : List HttpRequest :=
  [{ url := foundryLocalChatUrl,
     contentTypeHeader := "application/json".toList,
     body := buildPayload labText,
     timeoutSeconds := 120 }]

/-! ## The structured-output schema

Modelled from the spec: the StructuredOutputSchema of spec §3, in the field
names used by the JSON shape that `LOCAL_LAB_SYSTEM_PROMPT` (source lines
47–67) demands of the local model. The source contains no executable
validator; these definitions state what a schema-conformant payload is. -/

/-- Whether a parsed JSON value is a valid severity: a string in
mild/moderate/severe. -/
def isSeverity (j : Json) : Bool :=
  match j with
  | Json.str s =>
    s == "mild".toList || s == "moderate".toList || s == "severe".toList
  | _ => false

/-- Whether a parsed JSON value is a schema-conformant finding: `test` and
`value` present as strings, `unit` and `reference_range` present as string
or null, `severity` in the enum. -/
def validFinding (j : Json) : Bool :=
  match j with
  | Json.obj fields =>
    (match jLookup fields ("test".toList) with
     | some (Json.str _) => true
     | _ => false) &&
    (match jLookup fields ("value".toList) with
     | some (Json.str _) => true
     | _ => false) &&
    (match jLookup fields ("unit".toList) with
     | some (Json.str _) => true
     | some Json.null => true
     | _ => false) &&
    (match jLookup fields ("reference_range".toList) with
     | some (Json.str _) => true
     | some Json.null => true
     | _ => false) &&
    (match jLookup fields ("severity".toList) with
     | some sv => isSeverity sv
     | none => false)
  | _ => false

/-- Whether a parsed JSON value is a schema-conformant extraction result:
`overall_assessment` a string and `notable_abnormal_results` a list of valid
findings (possibly empty). -/
def validPayload (j : Json) : Bool :=
  match j with
  | Json.obj fields =>
    (match jLookup fields ("overall_assessment".toList) with
     | some (Json.str _) => true
     | _ => false) &&
    (match jLookup fields ("notable_abnormal_results".toList) with
     | some (Json.arr xs) => xs.all validFinding
     | _ => false)
  | _ => false

/-- A structured finding, as a record. -/
structure Finding where
  test : List Char
  value : List Char
  unit : Option (List Char)
  referenceRange : Option (List Char)
  severity : List Char
deriving DecidableEq

/-- A structured extraction payload, as a record. -/
structure LabPayload where
  overallAssessment : List Char
  notableAbnormalResults : List Finding
deriving DecidableEq

/-- A record payload is valid when every finding's severity is in the enum
(the required fields are present by construction). -/
def validLabPayload (P : LabPayload) : Bool :=
  P.notableAbnormalResults.all fun f =>
    f.severity == "mild".toList || f.severity == "moderate".toList ||
      f.severity == "severe".toList

/-- The JSON value of a finding record. -/
def findingToJson (f : Finding) : Json :=
  Json.obj [("test".toList, Json.str f.test),
    ("value".toList, Json.str f.value),
    ("unit".toList, match f.unit with | none => Json.null | some u => Json.str u),
    ("reference_range".toList,
      match f.referenceRange with | none => Json.null | some r => Json.str r),
    ("severity".toList, Json.str f.severity)]

/-- The JSON value of a payload record. -/
def payloadToJson (P : LabPayload) : Json :=
  Json.obj [("overall_assessment".toList, Json.str P.overallAssessment),
    ("notable_abnormal_results".toList,
      Json.arr (P.notableAbnormalResults.map findingToJson))]

/-! ## A textual serialization of payloads (as the local model would emit) -/

/-- JSON string escaping for one character. -/
def escapeChar (c : Char) : List Char :=
  if c = '"' then ['\\', '"']
  else if c = '\\' then ['\\', '\\']
  else if c = '\n' then ['\\', 'n']
  else if c = '\t' then ['\\', 't']
  else if c = '\r' then ['\\', 'r']
  else [c]

/-- JSON string escaping. -/
def escapeString (s : List Char) : List Char := s.flatMap escapeChar

/-- A JSON string literal. -/
def dumpsStr (s : List Char) : List Char := '"' :: (escapeString s ++ ['"'])

/-- A JSON string-or-null literal. -/
def dumpsOpt (o : Option (List Char)) : List Char :=
  match o with
  | none => "null".toList
  | some s => dumpsStr s

/-- The serialized form of one finding. -/
def dumpsFinding (f : Finding) : List Char :=
  "\x7b\"test\": ".toList ++ dumpsStr f.test ++
  ", \"value\": ".toList ++ dumpsStr f.value ++
  ", \"unit\": ".toList ++ dumpsOpt f.unit ++
  ", \"reference_range\": ".toList ++ dumpsOpt f.referenceRange ++
  ", \"severity\": ".toList ++ dumpsStr f.severity ++ "\x7d".toList

/-- Comma-join of serialized items. -/
def joinComma : List (List Char) → List Char
  | [] => []
  | [x] => x
  | x :: y :: xs => x ++ ", ".toList ++ joinComma (y :: xs)

/-- The serialized findings array. -/
def dumpsFindings (fs : List Finding) : List Char :=
  '[' :: (joinComma (fs.map dumpsFinding) ++ [']'])

/-- The characters strictly between the outer braces of the serialized
payload. -/
def payloadInner (P : LabPayload) : List Char :=
  "\"overall_assessment\": ".toList ++ dumpsStr P.overallAssessment ++
  ", \"notable_abnormal_results\": ".toList ++
    dumpsFindings P.notableAbnormalResults

/-- The textual serialization of a payload record: a JSON object literal. -/
def dumpsPayload (P : LabPayload) : List Char :=
  '{' :: (payloadInner P ++ ['}'])

/-- A chat-completions response body whose single choice carries the given
reply text as its message content. -/
def mkChatBody (content : List Char) : List Char :=
  "\x7b\"choices\": [\x7b\"message\": \x7b\"content\": ".toList ++
    dumpsStr content ++ "\x7d\x7d]\x7d".toList

/-! ## The orchestration gateway (spec §4.4)

The gateway exists in the repository only as the free-text
`SYMPTOM_CHECKER_INSTRUCTIONS` handed to a cloud model (source lines
15–35), so its decision policy is modelled from the spec. -/

/-- States of the per-request machine of spec §4.4. -/
inductive GatewayState where
  | start : GatewayState
  | urgentCheck : GatewayState
  | escalate : GatewayState
  | extractIfTriggered : GatewayState
  | compose : GatewayState
deriving DecidableEq

/-- Observable events of one gateway run, in order. -/
inductive GatewayEvent where
  | urgentChecked : GatewayEvent
  | escalated : GatewayEvent
  | extracted : GatewayEvent
  | composed : GatewayEvent
deriving DecidableEq

/-- The outward-facing response of one gateway run. -/
inductive GatewayResponse where
  | urgentEscalation : GatewayResponse
  | guidance : Bool → GatewayResponse
deriving DecidableEq

/-- The record of one gateway run: its ordered events, terminal state, how
often the extraction tool was invoked, and the response emitted. -/
structure GatewayRun where
  events : List GatewayEvent
  finalState : GatewayState
  toolCalls : Nat
  response : GatewayResponse
deriving DecidableEq

/-- Modelled from the spec: the §4.4 state machine `Start → UrgentCheck →
(Escalate terminal) or (ExtractIfTriggered → Compose terminal)`. The urgent
pre-check runs first on every request; if it fires, the fixed
urgent-escalation response is emitted and extraction is skipped entirely;
otherwise the extraction tool is invoked exactly once iff the trigger
predicate holds, before the final response is composed. -/
def runGateway (urgent trigger : List Char → Bool) (req : List Char) : GatewayRun :=
  if urgent req then
    { events := [GatewayEvent.urgentChecked, GatewayEvent.escalated],
      finalState := GatewayState.escalate,
      toolCalls := 0,
      response := GatewayResponse.urgentEscalation }
  else if trigger req then
    { events := [GatewayEvent.urgentChecked, GatewayEvent.extracted, GatewayEvent.composed],
      finalState := GatewayState.compose,
      toolCalls := 1,
      response := GatewayResponse.guidance true }
  else
    { events := [GatewayEvent.urgentChecked, GatewayEvent.composed],
      finalState := GatewayState.compose,
      toolCalls := 0,
      response := GatewayResponse.guidance false }

/-- Substring containment scan. -/
def containsInfix (pat : List Char) : List Char → Bool
  | [] => startsWith pat []
  | c :: rest => startsWith pat (c :: rest) || containsInfix pat rest

/-- The red-flag symptom patterns listed in `SYMPTOM_CHECKER_INSTRUCTIONS`
(source lines 20–21). -/
def redFlagPatterns : List (List Char) :=
  ["chest pain".toList, "trouble breathing".toList, "severe bleeding".toList,
   "stroke signs".toList, "one-sided weakness".toList, "confusion".toList,
   "fainting".toList]

/-- An incoming request contains an urgent-signal (red-flag) pattern. -/
def redFlagSignal (req : List Char) : Bool :=
  redFlagPatterns.any fun p => containsInfix p req

/-! ## Lemmas -/

/-! ## Sanitizer lemmas -/

lemma dropWhile_cons_false {p : Char → Bool} {c : Char} {t : List Char} (h : p c = false) :
    List.dropWhile p (c :: t) = c :: t := by
  simp [List.dropWhile_cons, h]

lemma pyRstrip_append (l m : List Char) (c : Char) (t : List Char)
    (hm : m.reverse = c :: t) (hc : pyWs c = false) : pyRstrip (l ++ m) = l ++ m := by
  have h1 : (l ++ m).reverse = c :: (t ++ l.reverse) := by
    rw [List.reverse_append, hm]; rfl
  unfold pyRstrip
  rw [h1, dropWhile_cons_false hc, ← h1, List.reverse_reverse]

lemma pyRstrip_concat_ws (l : List Char) (c : Char) (h : pyWs c = true) :
    pyRstrip (l ++ [c]) = pyRstrip l := by
  unfold pyRstrip
  rw [List.reverse_append]
  simp [List.dropWhile_cons, h]

lemma startsWith_append_self (p x : List Char) : startsWith p (p ++ x) = true := by
  induction p with
  | nil => rfl
  | cons a as ih => simp [startsWith, ih]

lemma endsWith_fence_append (u : List Char) :
    endsWith fenceMarker (u ++ ('\n' :: fenceMarker)) = true := by
  unfold endsWith
  rw [List.reverse_append]
  have h2 : ('\n' :: fenceMarker).reverse = fenceMarker ++ ['\n'] := by decide
  have h3 : fenceMarker.reverse = fenceMarker := by decide
  rw [h2, h3, List.append_assoc]
  exact startsWith_append_self fenceMarker _

lemma take_fence_tail (u : List Char) :
    (u ++ ('\n' :: fenceMarker)).take ((u ++ ('\n' :: fenceMarker)).length - 3) = u ++ ['\n'] := by
  have hl : (u ++ ('\n' :: fenceMarker)).length - 3 = u.length + 1 := by
    simp [fenceMarker]
  rw [hl, List.take_append]
  rfl

lemma stripClose_append (u : List Char) :
    stripCloseFence (u ++ ('\n' :: fenceMarker)) = pyRstrip (u ++ ['\n']) := by
  unfold stripCloseFence
  rw [endsWith_fence_append, take_fence_tail]
  simp

lemma pyRstrip_payload (mid : List Char) :
    pyRstrip (('{' :: (mid ++ ['}'])) ++ ['\n']) = '{' :: (mid ++ ['}']) := by
  rw [pyRstrip_concat_ws _ '\n' (by decide)]
  exact pyRstrip_append ('{' :: mid) ['}'] '}' [] (by decide) (by decide)

lemma pyStrip_payload (mid : List Char) :
    pyStrip ('{' :: (mid ++ ['}'])) = '{' :: (mid ++ ['}']) := by
  show pyRstrip (pyLstrip ('{' :: (mid ++ ['}']))) = _
  rw [show pyLstrip ('{' :: (mid ++ ['}'])) = '{' :: (mid ++ ['}']) from rfl]
  exact pyRstrip_append ('{' :: mid) ['}'] '}' [] (by decide) (by decide)

lemma pyStrip_wrapTag (s : List Char) : pyStrip (wrapFenceTag s) = wrapFenceTag s := by
  show pyRstrip (pyLstrip (wrapFenceTag s)) = _
  rw [show pyLstrip (wrapFenceTag s) = wrapFenceTag s from rfl]
  have h2 : wrapFenceTag s = (fenceMarker ++ (jsonTag ++ ('\n' :: (s ++ ['\n'])))) ++ fenceMarker := by
    simp [wrapFenceTag, List.append_assoc]
  rw [h2]
  exact pyRstrip_append _ fenceMarker '\x60' ['\x60', '\x60'] (by decide) (by decide)

lemma pyStrip_wrapNoTag (s : List Char) : pyStrip (wrapFenceNoTag s) = wrapFenceNoTag s := by
  show pyRstrip (pyLstrip (wrapFenceNoTag s)) = _
  rw [show pyLstrip (wrapFenceNoTag s) = wrapFenceNoTag s from rfl]
  have h2 : wrapFenceNoTag s = (fenceMarker ++ ('\n' :: (s ++ ['\n']))) ++ fenceMarker := by
    simp [wrapFenceNoTag, List.append_assoc]
  rw [h2]
  exact pyRstrip_append _ fenceMarker '\x60' ['\x60', '\x60'] (by decide) (by decide)

lemma strip_unwrapped (mid : List Char) :
    stripCodeFences ('{' :: (mid ++ ['}'])) = '{' :: (mid ++ ['}']) := by
  unfold stripCodeFences
  rw [pyStrip_payload]
  rfl

lemma strip_wrapNoTag (mid : List Char) :
    stripCodeFences (wrapFenceNoTag ('{' :: (mid ++ ['}']))) = '{' :: (mid ++ ['}']) := by
  unfold stripCodeFences
  rw [pyStrip_wrapNoTag]
  have hcond : startsWith fenceMarker (wrapFenceNoTag ('{' :: (mid ++ ['}']))) = true := rfl
  simp only [hcond, if_true]
  have h2 : stripTagPart (pyLstrip ((wrapFenceNoTag ('{' :: (mid ++ ['}']))).drop 3))
      = ('{' :: (mid ++ ['}'])) ++ ('\n' :: fenceMarker) := rfl
  rw [h2, stripClose_append]
  exact pyRstrip_payload mid

lemma strip_wrapTag (mid : List Char) :
    stripCodeFences (wrapFenceTag ('{' :: (mid ++ ['}']))) = '{' :: (mid ++ ['}']) := by
  unfold stripCodeFences
  rw [pyStrip_wrapTag]
  have hcond : startsWith fenceMarker (wrapFenceTag ('{' :: (mid ++ ['}']))) = true := rfl
  simp only [hcond, if_true]
  have h2 : stripTagPart (pyLstrip ((wrapFenceTag ('{' :: (mid ++ ['}']))).drop 3))
      = ('{' :: (mid ++ ['}'])) ++ ('\n' :: fenceMarker) := rfl
  rw [h2, stripClose_append]
  exact pyRstrip_payload mid

lemma char_beq_comm (a b : Char) : (a == b) = (b == a) := by
  by_cases h : a = b
  · subst h; rfl
  · rw [beq_eq_false_iff_ne.mpr h, beq_eq_false_iff_ne.mpr (Ne.symm h)]

lemma list_beq_comm (l m : List Char) : (l == m) = (m == l) := by
  induction l generalizing m with
  | nil => cases m <;> rfl
  | cons a as ih =>
    cases m with
    | nil => rfl
    | cons b bs =>
      show (a == b && (as == bs)) = (b == a && (bs == as))
      rw [char_beq_comm, ih]

lemma startsWith_eq_take_beq (p s : List Char) :
    startsWith p s = (p == s.take p.length) := by
  induction p generalizing s with
  | nil => rfl
  | cons a as ih =>
    cases s with
    | nil => rfl
    | cons c cs =>
      show (a == c && startsWith as cs) = (a == c && (as == cs.take as.length))
      rw [ih]

lemma tag_cond_eq (s1 : List Char) :
    startsWith jsonTag (s1.map Char.toLower) = lowerTagPrefix s1 := by
  unfold lowerTagPrefix
  rw [startsWith_eq_take_beq, list_beq_comm, List.map_take]
  rfl

/-! ## Helper lemmas for the claims -/

lemma concatParts_wellTyped (parts : List Json) (h : parts.all partWellTyped = true) :
    concatParts parts = some (joinAll (parts.map fragmentText)) := by
  revert h
  induction parts with
  | nil => intro _; rfl
  | cons p ps ih =>
    intro h
    rw [List.all_cons, Bool.and_eq_true] at h
    obtain ⟨hp, hps⟩ := h
    cases p with
    | obj fields =>
      rcases hl : jLookup fields textKey with _ | v
      · simp [concatParts, fragmentText, hl, joinAll, ih hps]
      · cases v with
        | str t => simp [concatParts, fragmentText, hl, joinAll, ih hps]
        | null => simp [partWellTyped, hl] at hp
        | bool b => simp [partWellTyped, hl] at hp
        | num n => simp [partWellTyped, hl] at hp
        | arr xs => simp [partWellTyped, hl] at hp
        | obj fs => simp [partWellTyped, hl] at hp
    | null => simp [concatParts, fragmentText, joinAll, ih hps]
    | bool b => simp [concatParts, fragmentText, joinAll, ih hps]
    | num n => simp [concatParts, fragmentText, joinAll, ih hps]
    | str t => simp [concatParts, fragmentText, joinAll, ih hps]
    | arr xs => simp [concatParts, fragmentText, joinAll, ih hps]

/-! ## The claims -/

/-- C1, counterexample: a payload that is well-formed JSON but violates the
schema (its finding's severity is `"extreme"`, outside the enum) is not
rejected: `summarize_lab_report` returns it as a successful result, so the
tool does not fail with SchemaViolationError and does return an invalid
object. -/
theorem c1_counterexample :
    validPayload (payloadToJson ⟨"x".toList,
        [⟨"WBC".toList, "14.5".toList, some ("x10^3/uL".toList),
          some ("4.0-10.0".toList), "extreme".toList⟩]⟩) = false ∧
    summarizeLabReport ("labs".toList)
        (HttpOutcome.response 200 (mkChatBody (dumpsPayload ⟨"x".toList,
          [⟨"WBC".toList, "14.5".toList, some ("x10^3/uL".toList),
            some ("4.0-10.0".toList), "extreme".toList⟩]⟩)))
      = Except.ok (payloadToJson ⟨"x".toList,
          [⟨"WBC".toList, "14.5".toList, some ("x10^3/uL".toList),
            some ("4.0-10.0".toList), "extreme".toList⟩]⟩) := by
  constructor
  · rfl
  · rfl

/-- C1 (amended): `summarize_lab_report` performs no schema validation at
all: whenever the sanitized reply parses as JSON, the parsed value is
returned unchanged — even when required fields are missing or a severity is
outside the mild/moderate/severe enum — and no SchemaViolationError exists
in the code. -/
theorem c1_no_validation (labText : List Char) (status : Nat) (body : List Char)
    (data content : Json) (ctext : List Char) (j : Json)
    (h1 : status < 400)
    (h2 : jsonLoads body = some data)
    (h3 : contentLookup data = some content)
    (h4 : contentToText content = some ctext)
    (h5 : jsonLoads (stripCodeFences ctext) = some j) :
    summarizeLabReport labText (HttpOutcome.response status body) = Except.ok j := by
  have hcond : ¬(400 ≤ status ∧ status < 600) := by omega
  simp [summarizeLabReport, hcond, h2, h3, h4, h5]

/-- C1 witness: the amended theorem applied at a concrete input (an empty
JSON object, which lacks every required field, is returned as a result). -/
theorem c1_no_validation_witness :
    summarizeLabReport ("labs".toList)
        (HttpOutcome.response 200 (mkChatBody ("\x7b\x7d".toList)))
      = Except.ok (Json.obj []) :=
  c1_no_validation ("labs".toList) 200 (mkChatBody ("\x7b\x7d".toList))
    (Json.obj [("choices".toList, Json.arr [Json.obj [("message".toList,
      Json.obj [("content".toList, Json.str ("\x7b\x7d".toList))])]])])
    (Json.str ("\x7b\x7d".toList)) ("\x7b\x7d".toList) (Json.obj [])
    (by decide) rfl rfl rfl rfl

/-- C2: for a schema-conformant payload record P whose serialization the
JSON library round-trips, sanitizing P wrapped in a fence with language tag,
wrapped in a fence without tag, or unwrapped, then parsing, yields the same
value of P in all three cases: the sanitizer only removes the enclosing
wrapper and never mutates the payload. -/
theorem c2_sanitize_then_parse (P : LabPayload)
    (_hv : validLabPayload P = true)
    (hrt : jsonLoads (dumpsPayload P) = some (payloadToJson P)) :
    jsonLoads (stripCodeFences (wrapFenceTag (dumpsPayload P))) = some (payloadToJson P) ∧
    jsonLoads (stripCodeFences (wrapFenceNoTag (dumpsPayload P))) = some (payloadToJson P) ∧
    jsonLoads (stripCodeFences (dumpsPayload P)) = some (payloadToJson P) := by
  have hshape : dumpsPayload P = '{' :: (payloadInner P ++ ['}']) := rfl
  refine ⟨?_, ?_, ?_⟩
  · rw [hshape, strip_wrapTag, ← hshape]; exact hrt
  · rw [hshape, strip_wrapNoTag, ← hshape]; exact hrt
  · rw [hshape, strip_unwrapped, ← hshape]; exact hrt

/-- C2 witness: the theorem applied to the spec's scenario-A payload. -/
theorem c2_witness :
    jsonLoads (stripCodeFences (wrapFenceTag (dumpsPayload ⟨"ok".toList, []⟩)))
      = some (payloadToJson ⟨"ok".toList, []⟩) :=
  (c2_sanitize_then_parse ⟨"ok".toList, []⟩ (by decide) rfl).1

/-- C3: a request containing an urgent-signal (red-flag) pattern always
drives the gateway to the Escalate terminal state with the fixed
urgent-escalation response and zero extraction-tool invocations, and on
every request whatsoever the urgent check is the first event, before any
extraction or composition. -/
theorem c3_urgent_escalation (trigger : List Char → Bool) (req : List Char)
    (h : redFlagSignal req = true) :
    (runGateway redFlagSignal trigger req).finalState = GatewayState.escalate ∧
    (runGateway redFlagSignal trigger req).toolCalls = 0 ∧
    (runGateway redFlagSignal trigger req).response = GatewayResponse.urgentEscalation ∧
    GatewayEvent.extracted ∉ (runGateway redFlagSignal trigger req).events ∧
    (∀ req', (runGateway redFlagSignal trigger req').events.head?
      = some GatewayEvent.urgentChecked) := by
  refine ⟨?_, ?_, ?_, ?_, ?_⟩
  · simp [runGateway, h]
  · simp [runGateway, h]
  · simp [runGateway, h]
  · simp [runGateway, h]
  · intro req'
    by_cases h1 : redFlagSignal req' <;> by_cases h2 : trigger req' <;>
      simp [runGateway, h1, h2]

/-- C3 witness: the theorem applied at a request reporting chest pain, under
a trigger predicate that would otherwise always fire. -/
theorem c3_witness :
    (runGateway redFlagSignal (fun _ => true) ("I have chest pain".toList)).finalState
      = GatewayState.escalate :=
  (c3_urgent_escalation (fun _ => true) ("I have chest pain".toList) (by decide)).1

/-- C4: when the trimmed input does not begin with a fence marker, the
sanitizer returns the trimmed input unchanged (and, being a total function,
it returns a string on every input). -/
theorem c4_no_fence_trimmed (text : List Char)
    (h : startsWith fenceMarker (pyStrip text) = false) :
    stripCodeFences text = pyStrip text := by
  unfold stripCodeFences
  simp [h]

/-- C4 witness: the theorem applied to a fence-free input. -/
theorem c4_witness : stripCodeFences ("  hello \n".toList) = pyStrip ("  hello \n".toList) :=
  c4_no_fence_trimmed ("  hello \n".toList) (by decide)

/-- C5: the failure kinds of the local-inference call are distinguishable:
a timeout or connection failure yields the Timeout/ConnectionError
exceptions (spec UnavailableError, category 0), a non-success HTTP status
yields HTTPError carrying the status (spec ServiceError, category 1), and a
response body that is undecodable or lacks the expected
choices/message/content shape yields a decode/shape exception (spec
ProtocolError, category 2); the three categories are pairwise distinct. -/
theorem c5_error_taxonomy :
    (∀ labText, summarizeLabReport labText HttpOutcome.timeout
        = Except.error LabError.timeoutError) ∧
    (∀ labText, summarizeLabReport labText HttpOutcome.connectError
        = Except.error LabError.connectionError) ∧
    (∀ labText status body, 400 ≤ status → status < 600 →
      summarizeLabReport labText (HttpOutcome.response status body)
        = Except.error (LabError.httpStatusError status)) ∧
    (∀ labText status body, status < 400 → jsonLoads body = none →
      summarizeLabReport labText (HttpOutcome.response status body)
        = Except.error LabError.responseDecodeError) ∧
    (∀ labText status body data, status < 400 → jsonLoads body = some data →
      contentLookup data = none →
      summarizeLabReport labText (HttpOutcome.response status body)
        = Except.error LabError.shapeAccessError) ∧
    errCategory LabError.timeoutError = 0 ∧
    errCategory LabError.connectionError = 0 ∧
    (∀ status, errCategory (LabError.httpStatusError status) = 1) ∧
    errCategory LabError.responseDecodeError = 2 ∧
    errCategory LabError.shapeAccessError = 2 := by
  refine ⟨fun _ => rfl, fun _ => rfl, ?_, ?_, ?_, rfl, rfl, fun _ => rfl, rfl, rfl⟩
  · intro labText status body h1 h2
    show (if 400 ≤ status ∧ status < 600 then _ else _) = _
    rw [if_pos ⟨h1, h2⟩]
  · intro labText status body h1 h2
    have hcond : ¬(400 ≤ status ∧ status < 600) := by omega
    simp [summarizeLabReport, hcond, h2]
  · intro labText status body data h1 h2 h3
    have hcond : ¬(400 ≤ status ∧ status < 600) := by omega
    simp [summarizeLabReport, hcond, h2, h3]

/-- C5 witness: the ServiceError clause applied at HTTP status 500. -/
theorem c5_witness :
    summarizeLabReport [] (HttpOutcome.response 500 [])
      = Except.error (LabError.httpStatusError 500) :=
  c5_error_taxonomy.2.2.1 [] 500 [] (by decide) (by decide)

/-- C6: when the sanitized reply is not well-formed JSON, the tool fails
with the JSON decode error, and that failure carries the sanitized text
itself (the `doc` of the JSONDecodeError). -/
theorem c6_malformed_output (labText : List Char) (status : Nat) (body : List Char)
    (data content : Json) (ctext : List Char)
    (h1 : status < 400)
    (h2 : jsonLoads body = some data)
    (h3 : contentLookup data = some content)
    (h4 : contentToText content = some ctext)
    (h5 : jsonLoads (stripCodeFences ctext) = none) :
    summarizeLabReport labText (HttpOutcome.response status body)
      = Except.error (LabError.outputDecodeError (stripCodeFences ctext)) := by
  have hcond : ¬(400 ≤ status ∧ status < 600) := by omega
  simp [summarizeLabReport, hcond, h2, h3, h4, h5]

/-- C6 witness: the theorem applied to a reply whose content is prose. -/
theorem c6_witness :
    summarizeLabReport [] (HttpOutcome.response 200 (mkChatBody ("not json".toList)))
      = Except.error (LabError.outputDecodeError (stripCodeFences ("not json".toList))) :=
  c6_malformed_output [] 200 (mkChatBody ("not json".toList))
    (Json.obj [("choices".toList, Json.arr [Json.obj [("message".toList,
      Json.obj [("content".toList, Json.str ("not json".toList))])]])])
    (Json.str ("not json".toList)) ("not json".toList)
    (by decide) rfl rfl rfl rfl

/-- C7: one invocation of `summarize_lab_report` issues exactly one HTTP
request (no retries), whose JSON body carries the model identifier, the
ordered message list with the fixed system message first and the caller's
text as the user message second, `max_tokens` 256 and temperature 0.2
(recorded in tenths); and of the response's choices list, only the first
element determines the content that is used. -/
theorem c7_single_request :
    (∀ labText, (requestsSent labText).length = 1) ∧
    (∀ labText, requestsSent labText =
      [{ url := foundryLocalChatUrl,
         contentTypeHeader := "application/json".toList,
         body := { model := foundryLocalModelId,
                   messages := [⟨"system".toList, localLabSystemPrompt⟩,
                                ⟨"user".toList, labText⟩],
                   maxTokens := 256,
                   temperatureTenths := 2 },
         timeoutSeconds := 120 }]) ∧
    (∀ c0 rest, contentLookup (Json.obj [("choices".toList, Json.arr (c0 :: rest))])
      = (getKey c0 ("message".toList)).bind fun m => getKey m ("content".toList)) :=
  ⟨fun _ => rfl, fun _ => rfl, fun _ _ => rfl⟩

/-- C8: a reply content that is a plain string is used as the reply text,
and one that is a list of well-typed fragments yields the in-order
concatenation of the text of its text-bearing fragments, non-text fragments
being ignored. -/
theorem c8_content_fragments (s : List Char) (parts : List Json)
    (h : parts.all partWellTyped = true) :
    contentToText (Json.str s) = some s ∧
    contentToText (Json.arr parts) = some (joinAll (parts.map fragmentText)) :=
  ⟨rfl, concatParts_wellTyped parts h⟩

/-- C8 witness: the theorem applied to a fragment list mixing a text
fragment, a plain-string fragment, a non-text dict fragment and another
text fragment. -/
theorem c8_witness :
    contentToText (Json.arr
        [Json.obj [("text".toList, Json.str ("ab".toList))],
         Json.str ("zz".toList),
         Json.obj [("type".toList, Json.str ("image".toList))],
         Json.obj [("text".toList, Json.str ("cd".toList))]])
      = some (joinAll (([Json.obj [("text".toList, Json.str ("ab".toList))],
         Json.str ("zz".toList),
         Json.obj [("type".toList, Json.str ("image".toList))],
         Json.obj [("text".toList, Json.str ("cd".toList))]]).map fragmentText)) :=
  (c8_content_fragments []
    [Json.obj [("text".toList, Json.str ("ab".toList))],
     Json.str ("zz".toList),
     Json.obj [("type".toList, Json.str ("image".toList))],
     Json.obj [("text".toList, Json.str ("cd".toList))]] (by decide)).2

/-- C9, counterexample: the spec says the tag is removed iff the token
immediately following the marker is the language tag; on the input whose
token is `jsonx` the code nevertheless removes four characters, so the code
and the token-reading of the spec disagree. -/
theorem c9_counterexample :
    stripCodeFences ("```jsonx\n\x7b\x7d\n```".toList)
      ≠ specStripTokenTag ("```jsonx\n\x7b\x7d\n```".toList) := by decide

/-- C9 (amended): the sanitizer removes a leading fence marker; it removes
the four tag characters iff the text after the marker merely begins,
case-insensitively, with the language tag (a prefix match, not a
whole-token match); and it removes a trailing fence marker and trims
trailing whitespace. -/
theorem c9_prefix_tag (text : List Char) :
    stripCodeFences text = specStripAmended text := by
  unfold stripCodeFences specStripAmended stripTagPart stripTagPartAmended
  rw [tag_cond_eq]

/-- C10: with a response whose body parses but lacks the
choices/message/content path (including an empty choices list), the
unguarded access `data["choices"][0]["message"]["content"]` raises, i.e.
the tool fails with the shape-access error. -/
theorem c10_unguarded_access (labText : List Char) (status : Nat) (body : List Char)
    (data : Json)
    (h1 : status < 400)
    (h2 : jsonLoads body = some data)
    (h3 : contentLookup data = none) :
    summarizeLabReport labText (HttpOutcome.response status body)
      = Except.error LabError.shapeAccessError := by
  have hcond : ¬(400 ≤ status ∧ status < 600) := by omega
  simp [summarizeLabReport, hcond, h2, h3]

/-- C10 witness: the theorem applied to a body with an empty choices list. -/
theorem c10_witness :
    summarizeLabReport [] (HttpOutcome.response 200 ("\x7b\"choices\": []\x7d".toList))
      = Except.error LabError.shapeAccessError :=
  c10_unguarded_access [] 200 ("\x7b\"choices\": []\x7d".toList)
    (Json.obj [("choices".toList, Json.arr [])])
    (by decide) rfl rfl
